import Mathlib

/-!
Shallow embedding of the task-manager authentication and task-store code
(Go sources: `task-manager/Repositories/*.go`, `task_manager/data/*.go`,
`Infrastructure/jwt_service.go`, `middleware/auth_middleware.go`), together
with theorems settling the specification claims.

Conventions of the embedding:
* A MongoDB collection is modelled as a `List` of records; `FindOne` with an
  equality filter is `List.find?` (first match), `InsertOne` appends,
  `CountDocuments` is `List.length`, `UpdateOne` rewrites the first matching
  record, `DeleteOne` removes the first matching record.
* A Go function returning `(T, error)` becomes `Except String T`; the error
  value is identified with its message string (every error the modelled
  code creates is `errors.New(msg)`, and the transport layer only ever
  observes the message).
* `primitive.NewObjectID()` is a fresh-id source: the fresh id is passed as
  an explicit extra argument.
* bcrypt (external library) is modelled by an injective tagging function:
  `HashPassword p = "bcrypt$" ++ p`, and comparison succeeds exactly when
  the stored hash is the hash of the supplied password.
-/

set_option autoImplicit false

namespace TaskManager

/-- Embedding of `domain.User` (Domain/domain.go): id, username, password, role.
The mongo ObjectID is modelled as its 24-hex-digit string form. -/
structure User where
  id : String
  username : String
  password : String
  role : String
deriving Repr, DecidableEq

/-- Embedding of `domain.Task` (Domain/domain.go): id, title, description, due_date, status. -/
structure Task where
  id : String
  title : String
  description : String
  dueDate : String
  status : String
deriving Repr, DecidableEq

/-- Model of bcrypt password hashing (`bcrypt.GenerateFromPassword` /
`PasswordService.HashPassword`): an injective one-way tag. -/
def HashPassword (password : String) : String :=
  "bcrypt$" ++ password

/-- Model of `bcrypt.CompareHashAndPassword` / `PasswordService.ComparePassword`:
succeeds (returns `true`) exactly when the hash matches the password. -/
def ComparePassword (hashedPassword password : String) : Bool :=
  hashedPassword == HashPassword password

/-- Hex-digit test used by `primitive.ObjectIDFromHex` (hex.DecodeString). -/
def isHexDig (c : Char) : Bool :=
  c.isDigit || ('a' ≤ c && c ≤ 'f') || ('A' ≤ c && c ≤ 'F')

/-- Lower-casing of a hex string (hex.DecodeString is case-insensitive and
`ObjectID.Hex()` renders lower-case). -/
def toLowerHex (s : String) : String :=
  ⟨s.data.map Char.toLower⟩

/-- Model of `primitive.ObjectIDFromHex`: a 24-character hex string decodes
(to its canonical lower-case form); anything else is an error (`none`). -/
def ObjectIDFromHex (s : String) : Option String :=
  if s.length == 24 && s.data.all isHexDig then some (toLowerHex s) else none

/-- JWT signing algorithms relevant to the code: the HMAC family accepted by
the `jwt.SigningMethodHMAC` type assertion in `ValidateToken`/`AuthMiddleware`,
plus representative non-HMAC methods ("none", RSA, ECDSA). -/
inductive SigningMethod where
  | HS256
  | HS384
  | HS512
  | RS256
  | ES256
  | AlgNone
deriving Repr, DecidableEq

/-- The `token.Method.(*jwt.SigningMethodHMAC)` type assertion. -/
def SigningMethod.isHMAC : SigningMethod → Bool
  | .HS256 => true
  | .HS384 => true
  | .HS512 => true
  | _ => false

/-- Token payload produced by `GenerateToken`: the `jwt.MapClaims`
`{"_id": userID, "username": username, "role": role}`. `subjectId` models the
`"_id"` key. -/
structure Claims where
  subjectId : String
  username : String
  role : String
deriving Repr, DecidableEq

/-- Model of an HMAC signature over the encoded payload: the pair of the
signing key and the signed payload (injective encoding, so signature
comparison is equality of both components). -/
structure Signature where
  key : String
  payload : Claims
deriving Repr, DecidableEq

/-- A parsed JWT: header signing method, payload claims, signature. -/
structure Token where
  method : SigningMethod
  claims : Claims
  sig : Signature
deriving Repr, DecidableEq

/-- The process-wide signing secret (`var jwtSecret = []byte("your_dev_secret_key")`). -/
def jwtSecret : String := "your_dev_secret_key"

/-- Signing: HMAC of the payload under `key` (`token.SignedString(jwtSecret)`). -/
def hmacSign (key : String) (payload : Claims) : Signature :=
  { key := key, payload := payload }

namespace Infrastructure

/-- Embedding of `JWTService.GenerateToken` (Infrastructure/jwt_service.go lines 18-31):
an HS256 token over `{_id, username, role}` signed with `jwtSecret`. -/
def GenerateToken (userID username role : String) : Token :=
  { method := .HS256,
    claims := { subjectId := userID, username := username, role := role },
    sig := hmacSign jwtSecret { subjectId := userID, username := username, role := role } }

/-- Embedding of `JWTService.ValidateToken` (Infrastructure/jwt_service.go lines 33-51):
the key function rejects any non-HMAC signing method (`jwt.ErrSignatureInvalid`,
surfacing as a parse error), then the signature is checked against `jwtSecret`;
only then are the claims returned. -/
def ValidateToken (t : Token) : Except String Claims :=
  if !t.method.isHMAC then
    .error "invalid or expired token"
  else if t.sig == hmacSign jwtSecret t.claims then
    .ok t.claims
  else
    .error "invalid or expired token"

end Infrastructure

namespace Repositories

/-- Embedding of `UserRepository.RegisterUser` (task-manager/Repositories/user_repository.go
lines 46-90). State-passing form: takes the current `users` collection and the
fresh ObjectID that `primitive.NewObjectID()` would produce; on success returns
the value handed back to the caller together with the new collection. -/
def RegisterUser (users : List User) (user : User) (newId : String) :
    Except String (User × List User) :=
  if user.username = "" ∨ user.password = "" then
    .error "fields cannot be empty"
  else if (users.find? (fun u => u.username == user.username)).isSome then
    .error "username already taken"
  else
    let role := if users.length == 0 then "admin" else "user"
    let stored : User :=
      { id := newId, username := user.username,
        password := HashPassword user.password, role := role }
    .ok ({ stored with password := "" }, users ++ [stored])

/-- Embedding of `domain.LoginResponse` (Domain/domain.go lines 25-29): id, username, token.
The structure has no password field. -/
structure LoginResponse where
  id : String
  username : String
  token : Token
deriving Repr, DecidableEq

/-- Embedding of `UserRepository.LoginUser` (task-manager/Repositories/user_repository.go
lines 92-121). Any `FindOne` failure and a password mismatch both yield
`errors.New("invalid username or password")`. -/
def LoginUser (users : List User) (user : User) : Except String LoginResponse :=
  if user.username = "" then
    .error "username is a required field"
  else
    match users.find? (fun u => u.username == user.username) with
    | none => .error "invalid username or password"
    | some existingUser =>
      if ComparePassword existingUser.password user.password then
        .ok { id := existingUser.id, username := existingUser.username,
              token := Infrastructure.GenerateToken existingUser.id
                existingUser.username existingUser.role }
      else
        .error "invalid username or password"

end Repositories

namespace Data

/-- Embedding of `RegisterUser` (task_manager/data/user_service.go lines 19-63). Same
modelling conventions as `Repositories.RegisterUser`; note this path checks
only the username for emptiness (line 23) — there is no password check.
`models.User` has the same four fields as `domain.User`, so the shared `User`
structure is reused. -/
def RegisterUser (users : List User) (user : User) (newId : String) :
    Except String (User × List User) :=
  if user.username = "" then
    .error "username is a required field"
  else if (users.find? (fun u => u.username == user.username)).isSome then
    .error "username already taken"
  else
    let role := if users.length == 0 then "admin" else "user"
    let stored : User :=
      { id := newId, username := user.username,
        password := HashPassword user.password, role := role }
    .ok ({ stored with password := "" }, users ++ [stored])

end Data

/-- Model of `collection.UpdateOne` with an equality filter: rewrite the first
record satisfying `p` by `f`; `none` models `MatchedCount == 0`. -/
def updateFirst {α : Type} (p : α → Bool) (f : α → α) : List α → Option (List α)
  | [] => none
  | x :: xs =>
    if p x then some (f x :: xs)
    else (updateFirst p f xs).map (fun ys => x :: ys)

namespace Repositories

/-- Embedding of `UserRepository.PromoteUser` (task-manager/Repositories/user_repository.go
lines 123-150): parse the id, `UpdateOne` setting role to "admin"
(`MatchedCount == 0` → "user not found"), re-read the record with `FindOne`,
clear its password and return it. The re-read `FindOne` error branch cannot
occur after a matched update; it carries mongo's no-document message. -/
def PromoteUser (users : List User) (id : String) :
    Except String (User × List User) :=
  match ObjectIDFromHex id with
  | none => .error "invalid user ID"
  | some objID =>
    match updateFirst (fun u => u.id == objID) (fun u => { u with role := "admin" }) users with
    | none => .error "user not found"
    | some users' =>
      match users'.find? (fun u => u.id == objID) with
      | none => .error "mongo: no documents in result"
      | some updatedUser => .ok ({ updatedUser with password := "" }, users')

/-- Embedding of `TaskRepository.GetTaskByID` (task-manager/Repositories/task_repository.go
lines 68-84): parse the id, `FindOne` by `_id`; `ErrNoDocuments` → "not found". -/
def GetTaskByID (tasks : List Task) (id : String) : Except String Task :=
  match ObjectIDFromHex id with
  | none => .error "invalid id format"
  | some objID =>
    match tasks.find? (fun t => t.id == objID) with
    | none => .error "not found"
    | some task => .ok task

/-- Embedding of `TaskRepository.UpdateTask` (task-manager/Repositories/task_repository.go
lines 95-124): parse the id, `UpdateOne` with `$set` on exactly
title/description/due_date/status (`MatchedCount == 0` → "not found"), then
return `GetTaskByID(id)` — the record re-read from the store. -/
def UpdateTask (tasks : List Task) (id : String) (updated : Task) :
    Except String (Task × List Task) :=
  match ObjectIDFromHex id with
  | none => .error "invalid id format"
  | some objID =>
    match updateFirst (fun t => t.id == objID)
        (fun t => { t with title := updated.title, description := updated.description,
                           dueDate := updated.dueDate, status := updated.status }) tasks with
    | none => .error "not found"
    | some tasks' =>
      match GetTaskByID tasks' id with
      | .error e => .error e
      | .ok task => .ok (task, tasks')

end Repositories

namespace Models

/-- Modelled from the spec: the `task_manager/models` package is absent from
the sources; per §3 a Task is {id (store-assigned), title, description,
due_date, status}, and `task_manager/data/task_service.go` keys it by an
`int` id. -/
structure Task where
  id : Int
  title : String
  description : String
  dueDate : String
  status : String
deriving Repr, DecidableEq

end Models

namespace Data

/-- The package-level state of task_manager/data/task_service.go lines 8-12:
`tasks` (a `map[int]models.Task`, modelled as an association list with unique
keys) and `nextID`. -/
structure StoreState where
  tasks : List (Int × Models.Task)
  nextID : Int
deriving Repr, DecidableEq

/-- The initial package state: empty map, `nextID = 1`. -/
def initialStoreState : StoreState := { tasks := [], nextID := 1 }

/-- Go map read `tasks[id]`. -/
def lookupTask (m : List (Int × Models.Task)) (k : Int) : Option Models.Task :=
  (m.find? (fun kv => kv.1 == k)).map (fun kv => kv.2)

/-- Go map write `tasks[k] = v`: replace the binding if the key is present,
otherwise add it. -/
def setTask (m : List (Int × Models.Task)) (k : Int) (v : Models.Task) :
    List (Int × Models.Task) :=
  match m with
  | [] => [(k, v)]
  | kv :: rest => if kv.1 == k then (k, v) :: rest else kv :: setTask rest k v

/-- Go map `delete(tasks, id)`. -/
def removeTask (m : List (Int × Models.Task)) (k : Int) : List (Int × Models.Task) :=
  m.filter (fun kv => kv.1 != k)

/-- Embedding of `GetAllTasks` (task_manager/data/task_service.go lines 14-22). -/
def GetAllTasks (s : StoreState) : List Models.Task :=
  s.tasks.map (fun kv => kv.2)

/-- Embedding of `GetTaskByID` (task_manager/data/task_service.go lines 24-29). -/
def GetTaskByID (s : StoreState) (id : Int) : Option Models.Task :=
  lookupTask s.tasks id

/-- Embedding of `CreateTask` (task_manager/data/task_service.go lines 31-38): assign
`nextID` as the id, store, increment `nextID`, return the stored task. -/
def CreateTask (s : StoreState) (task : Models.Task) : Models.Task × StoreState :=
  let t := { task with id := s.nextID }
  (t, { tasks := setTask s.tasks s.nextID t, nextID := s.nextID + 1 })

/-- Embedding of `UpdateTask` (task_manager/data/task_service.go lines 40-50): missing id →
`(Task{}, false)` and no change; otherwise overwrite the whole record with
the patch, forcing its id back to `id`. -/
def UpdateTask (s : StoreState) (id : Int) (updated : Models.Task) :
    Option Models.Task × StoreState :=
  match lookupTask s.tasks id with
  | none => (none, s)
  | some _ =>
    let u := { updated with id := id }
    (some u, { s with tasks := setTask s.tasks id u })

/-- Embedding of `DeleteTask` (task_manager/data/task_service.go lines 52-61). -/
def DeleteTask (s : StoreState) (id : Int) : Bool × StoreState :=
  match lookupTask s.tasks id with
  | none => (false, s)
  | some _ => (true, { s with tasks := removeTask s.tasks id })

/-- The store invariant of claim C10: every stored key is below `nextID`. -/
def storeInv (s : StoreState) : Prop :=
  ∀ kv ∈ s.tasks, kv.1 < s.nextID

instance (s : StoreState) : Decidable (storeInv s) := by
  unfold storeInv
  infer_instance

end Data

/-- Driver for claims about registration sequences: run a list of requests
(each an input record plus the fresh ObjectID for that call) against a given
registration function, returning the final collection and the list of
successfully returned records, in order. -/
def runRegsWith
    (reg : List User → User → String → Except String (User × List User))
    (users : List User) : List (User × String) → List User × List User
  | [] => (users, [])
  | (u, newId) :: rest =>
    match reg users u newId with
    | .ok (ret, users') =>
      let p := runRegsWith reg users' rest
      (p.1, ret :: p.2)
    | .error _ => runRegsWith reg users rest

/-- Registration sequences on the task-manager/Repositories path. -/
def runRegs : List User → List (User × String) → List User × List User :=
  runRegsWith Repositories.RegisterUser

/-- Registration sequences on the task_manager/data path. -/
def runRegsData : List User → List (User × String) → List User × List User :=
  runRegsWith Data.RegisterUser

/-- The success shape shared by both RegisterUser implementations: on success
the returned record carries the bootstrap role (admin exactly when the
collection was empty) and the new collection is the old one extended by one
stored record agreeing with the returned record on id, username and role. -/
def RegisterBehavior
    (reg : List User → User → String → Except String (User × List User)) : Prop :=
  ∀ users u newId ret users', reg users u newId = .ok (ret, users') →
    ∃ stored : User, users' = users ++ [stored] ∧
      stored.id = ret.id ∧ stored.username = ret.username ∧
      stored.role = ret.role ∧
      ret.role = (if users.length == 0 then "admin" else "user")

/-! ### Helper lemmas -/

theorem registerUser_ok {users : List User} {u : User} {newId : String}
    {ret : User} {users' : List User}
    (h : Repositories.RegisterUser users u newId = .ok (ret, users')) :
    ret = { id := newId, username := u.username, password := "",
            role := if users.length == 0 then "admin" else "user" } ∧
    users' = users ++ [{ id := newId, username := u.username,
                         password := HashPassword u.password,
                         role := if users.length == 0 then "admin" else "user" }] := by
  simp only [Repositories.RegisterUser] at h
  split at h
  · exact absurd h (by simp)
  · split at h
    · exact absurd h (by simp)
    · simp only [Except.ok.injEq, Prod.mk.injEq] at h
      exact ⟨h.1.symm, h.2.symm⟩

theorem dataRegisterUser_ok {users : List User} {u : User} {newId : String}
    {ret : User} {users' : List User}
    (h : Data.RegisterUser users u newId = .ok (ret, users')) :
    ret = { id := newId, username := u.username, password := "",
            role := if users.length == 0 then "admin" else "user" } ∧
    users' = users ++ [{ id := newId, username := u.username,
                         password := HashPassword u.password,
                         role := if users.length == 0 then "admin" else "user" }] := by
  simp only [Data.RegisterUser] at h
  split at h
  · exact absurd h (by simp)
  · split at h
    · exact absurd h (by simp)
    · simp only [Except.ok.injEq, Prod.mk.injEq] at h
      exact ⟨h.1.symm, h.2.symm⟩

theorem registerBehavior_repo : RegisterBehavior Repositories.RegisterUser := by
  intro users u newId ret users' h
  obtain ⟨hret, hst⟩ := registerUser_ok h
  subst hret
  exact ⟨_, hst, rfl, rfl, rfl, rfl⟩

theorem registerBehavior_data : RegisterBehavior Data.RegisterUser := by
  intro users u newId ret users' h
  obtain ⟨hret, hst⟩ := dataRegisterUser_ok h
  subst hret
  exact ⟨_, hst, rfl, rfl, rfl, rfl⟩

theorem runRegsWith_store_mem
    (reg : List User → User → String → Except String (User × List User))
    (hb : RegisterBehavior reg) (reqs : List (User × String)) (users : List User)
    (u : User) (hu : u ∈ users) : u ∈ (runRegsWith reg users reqs).1 := by
  induction reqs generalizing users with
  | nil => exact hu
  | cons req rest ih =>
    obtain ⟨v, newId⟩ := req
    simp only [runRegsWith]
    cases hreg : reg users v newId with
    | error e => exact ih users hu
    | ok p =>
      obtain ⟨ret, users'⟩ := p
      obtain ⟨stored, hst, -, -, -, -⟩ := hb users v newId ret users' hreg
      exact ih users' (hst ▸ List.mem_append_left _ hu)

theorem runRegsWith_role_user
    (reg : List User → User → String → Except String (User × List User))
    (hb : RegisterBehavior reg) (reqs : List (User × String)) (users : List User)
    (hne : users ≠ []) : ∀ r ∈ (runRegsWith reg users reqs).2, r.role = "user" := by
  induction reqs generalizing users with
  | nil => intro r hr; exact absurd hr (by simp [runRegsWith])
  | cons req rest ih =>
    obtain ⟨v, newId⟩ := req
    intro r hr
    simp only [runRegsWith] at hr
    cases hreg : reg users v newId with
    | error e =>
      rw [hreg] at hr
      exact ih users hne r hr
    | ok p =>
      obtain ⟨ret, users'⟩ := p
      rw [hreg] at hr
      obtain ⟨stored, hst, -, -, -, hrole⟩ := hb users v newId ret users' hreg
      simp only [List.mem_cons] at hr
      rcases hr with rfl | hr
      · rw [hrole]
        have hlen : (users.length == 0) = false := by
          simp only [beq_eq_false_iff_ne, ne_eq, List.length_eq_zero]
          exact hne
        simp [hlen]
      · exact ih users' (by simp [hst]) r hr

theorem firstUserAdmin_of_behavior
    (reg : List User → User → String → Except String (User × List User))
    (hb : RegisterBehavior reg) (reqs : List (User × String)) (ret : User)
    (rest : List User) (h : (runRegsWith reg [] reqs).2 = ret :: rest) :
    ret.role = "admin" ∧
    (∃ su ∈ (runRegsWith reg [] reqs).1,
       su.id = ret.id ∧ su.username = ret.username ∧ su.role = "admin") ∧
    (∀ r ∈ rest, r.role = "user") := by
  induction reqs with
  | nil => exact absurd h (by simp [runRegsWith])
  | cons req reqs' ih =>
    obtain ⟨v, newId⟩ := req
    simp only [runRegsWith] at h ⊢
    cases hreg : reg [] v newId with
    | error e =>
      rw [hreg] at h
      exact ih h
    | ok p =>
      obtain ⟨r, users'⟩ := p
      rw [hreg] at h
      obtain ⟨stored, hst, hsid, hsun, hsrl, hrole⟩ := hb [] v newId r users' hreg
      simp only [List.nil_append] at hst
      replace h : r :: (runRegsWith reg users' reqs').2 = ret :: rest := h
      show ret.role = "admin" ∧
        (∃ su ∈ (runRegsWith reg users' reqs').1,
           su.id = ret.id ∧ su.username = ret.username ∧ su.role = "admin") ∧
        (∀ r ∈ rest, r.role = "user")
      simp only [List.cons.injEq] at h
      obtain ⟨rfl, hrest⟩ := h
      have hadmin : r.role = "admin" := by simpa using hrole
      refine ⟨hadmin, ?_, ?_⟩
      · refine ⟨stored, ?_, hsid, hsun, by rw [hsrl, hadmin]⟩
        have hmem : stored ∈ users' := by rw [hst]; simp
        exact runRegsWith_store_mem reg hb reqs' users' stored hmem
      · intro x hx
        rw [← hrest] at hx
        exact runRegsWith_role_user reg hb reqs' users' (by simp [hst]) x hx

theorem updateFirst_of_find_fix {α : Type} (p : α → Bool) (f : α → α)
    (l : List α) (x : α) (hf : l.find? p = some x) (hfix : f x = x) :
    updateFirst p f l = some l := by
  induction l with
  | nil => simp at hf
  | cons a t ih =>
    cases hpa : p a with
    | true =>
      rw [List.find?_cons_of_pos _ hpa] at hf
      obtain rfl := Option.some.inj hf
      simp [updateFirst, hpa, hfix]
    | false =>
      rw [List.find?_cons_of_neg _ (by simp [hpa])] at hf
      simp [updateFirst, hpa, ih hf]

theorem updateFirst_spec {α : Type} (p : α → Bool) (f : α → α)
    (hpf : ∀ a, p a = true → p (f a) = true) (l : List α) (x : α)
    (hf : l.find? p = some x) :
    ∃ i, l.get? i = some x ∧ updateFirst p f l = some (l.set i (f x)) ∧
      (l.set i (f x)).find? p = some (f x) := by
  induction l generalizing x with
  | nil => simp at hf
  | cons a t ih =>
    cases hpa : p a with
    | true =>
      rw [List.find?_cons_of_pos _ hpa] at hf
      obtain rfl := Option.some.inj hf
      refine ⟨0, rfl, by simp [updateFirst, hpa], ?_⟩
      simp only [List.set_cons_zero]
      exact List.find?_cons_of_pos _ (hpf a hpa)
    | false =>
      rw [List.find?_cons_of_neg _ (by simp [hpa])] at hf
      obtain ⟨i, h1, h2, h3⟩ := ih x hf
      refine ⟨i + 1, by simpa using h1, ?_, ?_⟩
      · simp [updateFirst, hpa, h2]
      · rw [List.set_cons_succ, List.find?_cons_of_neg _ (by simp [hpa])]
        exact h3

/-! ### Claim theorems -/

/-- Claim C8: the role stored and returned by RegisterUser is independent of
the caller-supplied role field — on both registration paths, two requests
identical except for the role in the request body produce identical results
(same returned record, same stored collection), so a client can never
self-assign admin at registration. -/
theorem C8_role_independent (users : List User) (u : User)
    (newId : String) (r₁ r₂ : String) :
    Repositories.RegisterUser users { u with role := r₁ } newId =
      Repositories.RegisterUser users { u with role := r₂ } newId ∧
    Data.RegisterUser users { u with role := r₁ } newId =
      Data.RegisterUser users { u with role := r₂ } newId := by
  cases u
  exact ⟨rfl, rfl⟩

/-- Claim C4: verifying a token produced by `GenerateToken` succeeds and
yields claims containing exactly the subjectId, username and role that were
issued (round-trip identity on the claims). -/
theorem C4_token_roundtrip (subjectId username role : String) :
    Infrastructure.ValidateToken (Infrastructure.GenerateToken subjectId username role) =
      .ok { subjectId := subjectId, username := username, role := role } := by
  simp [Infrastructure.ValidateToken, Infrastructure.GenerateToken,
        SigningMethod.isHMAC, hmacSign]

/-- Claim C9: a token whose header declares a non-HMAC signing method (e.g.
"none" or RS256) is rejected by `ValidateToken` with an error, even when its
payload is well-formed; claims are never returned for such a token. -/
theorem C9_non_hmac_rejected (t : Token) (h : t.method.isHMAC = false) :
    Infrastructure.ValidateToken t = .error "invalid or expired token" := by
  simp [Infrastructure.ValidateToken, h]

/-- Witness for C9: a token with method "none" and well-formed claims — even
carrying a signature that would match under the real secret — is rejected. -/
theorem C9_non_hmac_rejected_witness :
    (Token.mk .AlgNone ⟨"1", "alice", "admin"⟩
        (hmacSign jwtSecret ⟨"1", "alice", "admin"⟩)).method.isHMAC = false ∧
    Infrastructure.ValidateToken
      (Token.mk .AlgNone ⟨"1", "alice", "admin"⟩
        (hmacSign jwtSecret ⟨"1", "alice", "admin"⟩)) =
      .error "invalid or expired token" :=
  ⟨rfl, C9_non_hmac_rejected _ rfl⟩

/-- Claim C1: in any registration sequence starting from the empty user
collection — on either registration path — the first record successfully
created by RegisterUser is returned with role "admin" and remains stored
with role "admin", and every subsequently created record is returned with
role "user", regardless of the usernames and passwords supplied. -/
theorem C1_first_user_admin (reqs : List (User × String)) (ret retd : User)
    (rest restd : List User) :
    ((runRegs [] reqs).2 = ret :: rest →
      ret.role = "admin" ∧
      (∃ su ∈ (runRegs [] reqs).1,
         su.id = ret.id ∧ su.username = ret.username ∧ su.role = "admin") ∧
      (∀ r ∈ rest, r.role = "user")) ∧
    ((runRegsData [] reqs).2 = retd :: restd →
      retd.role = "admin" ∧
      (∃ su ∈ (runRegsData [] reqs).1,
         su.id = retd.id ∧ su.username = retd.username ∧ su.role = "admin") ∧
      (∀ r ∈ restd, r.role = "user")) :=
  ⟨firstUserAdmin_of_behavior _ registerBehavior_repo reqs ret rest,
   firstUserAdmin_of_behavior _ registerBehavior_data reqs retd restd⟩

/-- Witness for C1: a concrete two-request run on both paths — "alice" (who
even asks for an empty role) becomes admin and is stored as admin; "bob"
becomes a plain user. -/
theorem C1_first_user_admin_witness :
    (runRegs [] [({ id := "", username := "alice", password := "pw1", role := "" },
                  "aaaaaaaaaaaaaaaaaaaaaaaa"),
                 ({ id := "", username := "bob", password := "pw2", role := "admin" },
                  "bbbbbbbbbbbbbbbbbbbbbbbb")]).2 =
      { id := "aaaaaaaaaaaaaaaaaaaaaaaa", username := "alice",
        password := "", role := "admin" } ::
      [{ id := "bbbbbbbbbbbbbbbbbbbbbbbb", username := "bob",
         password := "", role := "user" }] ∧
    (runRegsData [] [({ id := "", username := "alice", password := "pw1", role := "" },
                  "aaaaaaaaaaaaaaaaaaaaaaaa"),
                 ({ id := "", username := "bob", password := "pw2", role := "admin" },
                  "bbbbbbbbbbbbbbbbbbbbbbbb")]).2 =
      { id := "aaaaaaaaaaaaaaaaaaaaaaaa", username := "alice",
        password := "", role := "admin" } ::
      [{ id := "bbbbbbbbbbbbbbbbbbbbbbbb", username := "bob",
         password := "", role := "user" }] ∧
    (User.role { id := "aaaaaaaaaaaaaaaaaaaaaaaa", username := "alice",
                 password := "", role := "admin" } = "admin" ∧
     (∃ su ∈ (runRegs [] [({ id := "", username := "alice", password := "pw1", role := "" },
                  "aaaaaaaaaaaaaaaaaaaaaaaa"),
                 ({ id := "", username := "bob", password := "pw2", role := "admin" },
                  "bbbbbbbbbbbbbbbbbbbbbbbb")]).1,
        su.id = "aaaaaaaaaaaaaaaaaaaaaaaa" ∧ su.username = "alice" ∧ su.role = "admin") ∧
     (∀ r ∈ ([{ id := "bbbbbbbbbbbbbbbbbbbbbbbb", username := "bob",
                password := "", role := "user" }] : List User), r.role = "user")) ∧
    (User.role { id := "aaaaaaaaaaaaaaaaaaaaaaaa", username := "alice",
                 password := "", role := "admin" } = "admin" ∧
     (∃ su ∈ (runRegsData [] [({ id := "", username := "alice", password := "pw1", role := "" },
                  "aaaaaaaaaaaaaaaaaaaaaaaa"),
                 ({ id := "", username := "bob", password := "pw2", role := "admin" },
                  "bbbbbbbbbbbbbbbbbbbbbbbb")]).1,
        su.id = "aaaaaaaaaaaaaaaaaaaaaaaa" ∧ su.username = "alice" ∧ su.role = "admin") ∧
     (∀ r ∈ ([{ id := "bbbbbbbbbbbbbbbbbbbbbbbb", username := "bob",
                password := "", role := "user" }] : List User), r.role = "user")) := by
  have h := C1_first_user_admin
    [({ id := "", username := "alice", password := "pw1", role := "" },
      "aaaaaaaaaaaaaaaaaaaaaaaa"),
     ({ id := "", username := "bob", password := "pw2", role := "admin" },
      "bbbbbbbbbbbbbbbbbbbbbbbb")]
    { id := "aaaaaaaaaaaaaaaaaaaaaaaa", username := "alice",
      password := "", role := "admin" }
    { id := "aaaaaaaaaaaaaaaaaaaaaaaa", username := "alice",
      password := "", role := "admin" }
    [{ id := "bbbbbbbbbbbbbbbbbbbbbbbb", username := "bob",
       password := "", role := "user" }]
    [{ id := "bbbbbbbbbbbbbbbbbbbbbbbb", username := "bob",
       password := "", role := "user" }]
  refine ⟨by decide, by decide, ?_, ?_⟩
  · have h1 := h.1 (by decide)
    exact ⟨h1.1, h1.2.1, h1.2.2⟩
  · have h2 := h.2 (by decide)
    exact ⟨h2.1, h2.2.1, h2.2.2⟩

/-- Counterexample to claim C2 as stated: on the `task_manager/data`
registration path, a request with a non-empty username and an EMPTY password
is accepted — the call succeeds and a user record (hashing the empty
password) is created, rather than failing with a validation error. -/
theorem C2_counterexample :
    Data.RegisterUser [] { id := "", username := "bob", password := "", role := "" }
        "64a1b2c3d4e5f60718293a4b" =
      .ok ({ id := "64a1b2c3d4e5f60718293a4b", username := "bob",
             password := "", role := "admin" },
           [{ id := "64a1b2c3d4e5f60718293a4b", username := "bob",
              password := "bcrypt$", role := "admin" }]) := by
  rfl

/-- Claim C2 (amended): on the `task-manager/Repositories` path an empty
username or an empty password always fails with the validation error and no
record is created; on the `task_manager/data` path only an empty username is
rejected — that path performs no password check. -/
theorem C2_empty_fields (users : List User) (u : User) (newId : String) :
    (u.username = "" ∨ u.password = "" →
      Repositories.RegisterUser users u newId = .error "fields cannot be empty") ∧
    (u.username = "" →
      Data.RegisterUser users u newId = .error "username is a required field") := by
  constructor
  · intro h
    simp only [Repositories.RegisterUser]
    rw [if_pos h]
  · intro h
    simp only [Data.RegisterUser]
    rw [if_pos h]

/-- Witness for the amended C2: the empty-username request fails on both
paths. -/
theorem C2_empty_fields_witness :
    Repositories.RegisterUser [] { id := "", username := "", password := "pw", role := "" }
        "cccccccccccccccccccccccc" = .error "fields cannot be empty" ∧
    Data.RegisterUser [] { id := "", username := "", password := "pw", role := "" }
        "cccccccccccccccccccccccc" = .error "username is a required field" :=
  ⟨(C2_empty_fields [] { id := "", username := "", password := "pw", role := "" }
      "cccccccccccccccccccccccc").1 (Or.inl rfl),
   (C2_empty_fields [] { id := "", username := "", password := "pw", role := "" }
      "cccccccccccccccccccccccc").2 rfl⟩

/-- Claim C3: for any store, a login whose username matches no stored user
and a login naming an existing user but failing the password comparison
return the identical error value ("invalid username or password"), so the
two failure causes are indistinguishable to the caller. -/
theorem C3_login_indistinguishable (users : List User) (u₁ u₂ ex : User)
    (h₁ : u₁.username ≠ "") (h₂ : u₂.username ≠ "")
    (hn : users.find? (fun v => v.username == u₁.username) = none)
    (he : users.find? (fun v => v.username == u₂.username) = some ex)
    (hm : ComparePassword ex.password u₂.password = false) :
    Repositories.LoginUser users u₁ = .error "invalid username or password" ∧
    Repositories.LoginUser users u₁ = Repositories.LoginUser users u₂ := by
  have e₁ : Repositories.LoginUser users u₁ = .error "invalid username or password" := by
    simp only [Repositories.LoginUser]
    rw [if_neg h₁, hn]
  have e₂ : Repositories.LoginUser users u₂ = .error "invalid username or password" := by
    simp only [Repositories.LoginUser]
    rw [if_neg h₂, he]
    simp [hm]
  exact ⟨e₁, e₁.trans e₂.symm⟩

/-- Witness for C3: with "alice" stored, logging in as the absent "bob" and
logging in as "alice" with the wrong password produce the same error. -/
theorem C3_login_indistinguishable_witness :
    Repositories.LoginUser
        [{ id := "64a1b2c3d4e5f60718293a4b", username := "alice",
           password := "bcrypt$pw", role := "admin" }]
        { id := "", username := "bob", password := "pw", role := "" } =
      .error "invalid username or password" ∧
    Repositories.LoginUser
        [{ id := "64a1b2c3d4e5f60718293a4b", username := "alice",
           password := "bcrypt$pw", role := "admin" }]
        { id := "", username := "bob", password := "pw", role := "" } =
      Repositories.LoginUser
        [{ id := "64a1b2c3d4e5f60718293a4b", username := "alice",
           password := "bcrypt$pw", role := "admin" }]
        { id := "", username := "alice", password := "wrong", role := "" } :=
  C3_login_indistinguishable
    [{ id := "64a1b2c3d4e5f60718293a4b", username := "alice",
       password := "bcrypt$pw", role := "admin" }]
    { id := "", username := "bob", password := "pw", role := "" }
    { id := "", username := "alice", password := "wrong", role := "" }
    { id := "64a1b2c3d4e5f60718293a4b", username := "alice",
      password := "bcrypt$pw", role := "admin" }
    (by decide) (by decide) (by decide) (by decide) (by decide)

/-- Claim C5: no successful registration or promotion ever returns password
material — the password field of the record handed back to the caller is the
empty string on both paths (and `LoginResponse`, the login return type,
carries only id, username and token by construction). -/
theorem C5_no_password_material (users users₁ users₂ : List User)
    (u : User) (newId uid : String) (r₁ r₂ : User) :
    (Repositories.RegisterUser users u newId = .ok (r₁, users₁) → r₁.password = "") ∧
    (Repositories.PromoteUser users uid = .ok (r₂, users₂) → r₂.password = "") := by
  constructor
  · intro h
    obtain ⟨hret, -⟩ := registerUser_ok h
    rw [hret]
  · intro h
    simp only [Repositories.PromoteUser] at h
    split at h
    · exact absurd h (by simp)
    · split at h
      · exact absurd h (by simp)
      · split at h
        · exact absurd h (by simp)
        · simp only [Except.ok.injEq, Prod.mk.injEq] at h
          rw [← h.1]

/-- Witness for C5: a concrete successful registration and a concrete
successful promotion, each returning an empty password field. -/
theorem C5_no_password_material_witness :
    (User.password { id := "aaaaaaaaaaaaaaaaaaaaaaaa", username := "alice", password := "", role := "admin" } = "") ∧
    (User.password { id := "64a1b2c3d4e5f60718293a4b", username := "alice", password := "", role := "admin" } = "") :=
  ⟨(C5_no_password_material []
      [{ id := "aaaaaaaaaaaaaaaaaaaaaaaa", username := "alice", password := "bcrypt$pw", role := "admin" }] []
      { id := "", username := "alice", password := "pw", role := "" }
      "aaaaaaaaaaaaaaaaaaaaaaaa" ""
      { id := "aaaaaaaaaaaaaaaaaaaaaaaa", username := "alice", password := "", role := "admin" }
      { id := "", username := "", password := "", role := "" }).1 rfl,
   (C5_no_password_material
      [{ id := "64a1b2c3d4e5f60718293a4b", username := "alice", password := "bcrypt$pw", role := "user" }] []
      [{ id := "64a1b2c3d4e5f60718293a4b", username := "alice", password := "bcrypt$pw", role := "admin" }]
      { id := "", username := "", password := "", role := "" }
      "" "64a1b2c3d4e5f60718293a4b"
      { id := "", username := "", password := "", role := "" }
      { id := "64a1b2c3d4e5f60718293a4b", username := "alice", password := "", role := "admin" }).2 rfl⟩

/-- Claim C6: promoting a user that is already an admin (via a valid,
matching id) succeeds, returns the stored record (password cleared), and
leaves the stored collection completely unchanged. -/
theorem C6_promote_idempotent (users : List User) (id objID : String) (ex : User)
    (hid : ObjectIDFromHex id = some objID)
    (hfind : users.find? (fun u => u.id == objID) = some ex)
    (hadmin : ex.role = "admin") :
    Repositories.PromoteUser users id = .ok ({ ex with password := "" }, users) := by
  have hfix : ({ ex with role := "admin" } : User) = ex := by
    cases ex with
    | mk i un pw r =>
      simp only at hadmin
      rw [hadmin]
  have hupd := updateFirst_of_find_fix (fun u => u.id == objID)
    (fun u => ({ u with role := "admin" } : User)) users ex hfind hfix
  simp only [Repositories.PromoteUser, hid, hupd, hfind]

/-- Witness for C6: promoting the already-admin "alice" succeeds and
changes nothing. -/
theorem C6_promote_idempotent_witness :
    Repositories.PromoteUser
        [{ id := "64a1b2c3d4e5f60718293a4b", username := "alice", password := "bcrypt$pw", role := "admin" }]
        "64a1b2c3d4e5f60718293a4b" =
      .ok ({ id := "64a1b2c3d4e5f60718293a4b", username := "alice", password := "", role := "admin" },
           [{ id := "64a1b2c3d4e5f60718293a4b", username := "alice", password := "bcrypt$pw", role := "admin" }]) :=
  C6_promote_idempotent
    [{ id := "64a1b2c3d4e5f60718293a4b", username := "alice", password := "bcrypt$pw", role := "admin" }]
    "64a1b2c3d4e5f60718293a4b" "64a1b2c3d4e5f60718293a4b"
    { id := "64a1b2c3d4e5f60718293a4b", username := "alice", password := "bcrypt$pw", role := "admin" }
    (by decide) (by decide) rfl

theorem lookupTask_setTask_self (m : List (Int × Models.Task)) (k : Int)
    (v : Models.Task) : Data.lookupTask (Data.setTask m k v) k = some v := by
  induction m with
  | nil => simp [Data.lookupTask, Data.setTask, List.find?]
  | cons a t ih =>
    simp only [Data.setTask]
    split
    · simp [Data.lookupTask, List.find?]
    · rename_i hak
      simp only [Data.lookupTask] at ih ⊢
      rw [List.find?_cons_of_neg _ (by simpa using hak)]
      exact ih

theorem updateTask_repo_spec (tasks : List Task) (id objID : String)
    (updated t₀ : Task)
    (hid : ObjectIDFromHex id = some objID)
    (hfind : tasks.find? (fun t => t.id == objID) = some t₀) :
    ∃ t' tasks', Repositories.UpdateTask tasks id updated = .ok (t', tasks') ∧
      t'.id = t₀.id ∧ t'.title = updated.title ∧
      t'.description = updated.description ∧
      t'.dueDate = updated.dueDate ∧ t'.status = updated.status ∧
      Repositories.GetTaskByID tasks' id = .ok t' ∧
      ∃ i, tasks.get? i = some t₀ ∧ tasks' = tasks.set i t' := by
  obtain ⟨i, hget, hupd, hfnd'⟩ := updateFirst_spec (fun t => t.id == objID)
    (fun t => ({ t with title := updated.title, description := updated.description,
                        dueDate := updated.dueDate, status := updated.status } : Task))
    (fun a ha => ha) tasks t₀ hfind
  have hGet : Repositories.GetTaskByID
      (tasks.set i ({ t₀ with title := updated.title, description := updated.description,
                              dueDate := updated.dueDate, status := updated.status } : Task)) id =
      .ok ({ t₀ with title := updated.title, description := updated.description,
                     dueDate := updated.dueDate, status := updated.status } : Task) := by
    simp only [Repositories.GetTaskByID, hid, hfnd']
  refine ⟨({ t₀ with title := updated.title, description := updated.description,
                     dueDate := updated.dueDate, status := updated.status } : Task),
    tasks.set i ({ t₀ with title := updated.title, description := updated.description,
                           dueDate := updated.dueDate, status := updated.status } : Task),
    ?_, rfl, rfl, rfl, rfl, rfl, hGet, ⟨i, hget, rfl⟩⟩
  simp only [Repositories.UpdateTask, hid, hupd, hGet]

/-- Claim C7: on the Repositories path, updating an existing task (valid id,
matching record) replaces exactly the four fields
title/description/due_date/status, keeps the id unchanged, rewrites only that
one record in the store, and returns the canonical record as re-read from the
store after the write; on the in-memory data path, the stored record becomes
the patch with the id forced back to the path's id, and the returned record
equals what a re-read of the store yields after the write. -/
theorem C7_update_replaces_fields :
    (∀ (tasks : List Task) (id objID : String) (updated t₀ : Task),
      ObjectIDFromHex id = some objID →
      tasks.find? (fun t => t.id == objID) = some t₀ →
      ∃ t' tasks', Repositories.UpdateTask tasks id updated = .ok (t', tasks') ∧
        t'.id = t₀.id ∧ t'.title = updated.title ∧
        t'.description = updated.description ∧
        t'.dueDate = updated.dueDate ∧ t'.status = updated.status ∧
        Repositories.GetTaskByID tasks' id = .ok t' ∧
        ∃ i, tasks.get? i = some t₀ ∧ tasks' = tasks.set i t') ∧
    (∀ (s : Data.StoreState) (mid : Int) (patch t₁ : Models.Task),
      Data.lookupTask s.tasks mid = some t₁ →
      Data.UpdateTask s mid patch =
        (some ({ patch with id := mid } : Models.Task),
         { s with tasks := Data.setTask s.tasks mid ({ patch with id := mid } : Models.Task) }) ∧
      Data.GetTaskByID (Data.UpdateTask s mid patch).2 mid =
        some ({ patch with id := mid } : Models.Task)) := by
  constructor
  · intro tasks id objID updated t₀ hid hfind
    exact updateTask_repo_spec tasks id objID updated t₀ hid hfind
  · intro s mid patch t₁ hlkp
    constructor
    · simp only [Data.UpdateTask, hlkp]
    · simp only [Data.UpdateTask, hlkp, Data.GetTaskByID]
      exact lookupTask_setTask_self s.tasks mid _

/-- Witness for C7: updating the second of two stored tasks on the
Repositories path rewrites exactly that record's four mutable fields and
returns the re-read record; updating the single stored task on the data path
stores and returns the patch with its id forced back. -/
theorem C7_update_replaces_fields_witness :
    (∃ t' tasks',
      Repositories.UpdateTask
          [{ id := "aaaaaaaaaaaaaaaaaaaaaaaa", title := "t1", description := "d1", dueDate := "2024-01-01", status := "pending" },
           { id := "64a1b2c3d4e5f60718293a4b", title := "t2", description := "d2", dueDate := "2024-02-02", status := "pending" }]
          "64a1b2c3d4e5f60718293a4b"
          { id := "ignored", title := "new title", description := "new desc", dueDate := "2025-03-03", status := "done" } =
        .ok (t', tasks') ∧
      t'.id = "64a1b2c3d4e5f60718293a4b" ∧ t'.title = "new title" ∧
      t'.description = "new desc" ∧
      t'.dueDate = "2025-03-03" ∧ t'.status = "done" ∧
      Repositories.GetTaskByID tasks' "64a1b2c3d4e5f60718293a4b" = .ok t' ∧
      ∃ i, ([{ id := "aaaaaaaaaaaaaaaaaaaaaaaa", title := "t1", description := "d1", dueDate := "2024-01-01", status := "pending" },
             { id := "64a1b2c3d4e5f60718293a4b", title := "t2", description := "d2", dueDate := "2024-02-02", status := "pending" }] : List Task).get? i =
          some { id := "64a1b2c3d4e5f60718293a4b", title := "t2", description := "d2", dueDate := "2024-02-02", status := "pending" } ∧
        tasks' = ([{ id := "aaaaaaaaaaaaaaaaaaaaaaaa", title := "t1", description := "d1", dueDate := "2024-01-01", status := "pending" },
                   { id := "64a1b2c3d4e5f60718293a4b", title := "t2", description := "d2", dueDate := "2024-02-02", status := "pending" }] : List Task).set i t') ∧
    (Data.UpdateTask
        { tasks := [(1, { id := 1, title := "t1", description := "d1", dueDate := "2024-01-01", status := "pending" })], nextID := 2 } 1
        { id := 9, title := "new title", description := "new desc", dueDate := "2025-03-03", status := "done" } =
      (some { id := 1, title := "new title", description := "new desc", dueDate := "2025-03-03", status := "done" },
       { tasks := [(1, { id := 1, title := "new title", description := "new desc", dueDate := "2025-03-03", status := "done" })], nextID := 2 }) ∧
     Data.GetTaskByID
        (Data.UpdateTask
          { tasks := [(1, { id := 1, title := "t1", description := "d1", dueDate := "2024-01-01", status := "pending" })], nextID := 2 } 1
          { id := 9, title := "new title", description := "new desc", dueDate := "2025-03-03", status := "done" }).2 1 =
      some { id := 1, title := "new title", description := "new desc", dueDate := "2025-03-03", status := "done" }) := by
  constructor
  · have h := C7_update_replaces_fields.1
      [{ id := "aaaaaaaaaaaaaaaaaaaaaaaa", title := "t1", description := "d1", dueDate := "2024-01-01", status := "pending" },
       { id := "64a1b2c3d4e5f60718293a4b", title := "t2", description := "d2", dueDate := "2024-02-02", status := "pending" }]
      "64a1b2c3d4e5f60718293a4b" "64a1b2c3d4e5f60718293a4b"
      { id := "ignored", title := "new title", description := "new desc", dueDate := "2025-03-03", status := "done" }
      { id := "64a1b2c3d4e5f60718293a4b", title := "t2", description := "d2", dueDate := "2024-02-02", status := "pending" }
      (by decide) (by decide)
    obtain ⟨t', tasks', h1, h2, h3, h4, h5, h6, h7, h8⟩ := h
    exact ⟨t', tasks', h1, by rw [h2], h3, h4, h5, h6, h7, h8⟩
  · exact C7_update_replaces_fields.2
      { tasks := [(1, { id := 1, title := "t1", description := "d1", dueDate := "2024-01-01", status := "pending" })], nextID := 2 } 1
      { id := 9, title := "new title", description := "new desc", dueDate := "2025-03-03", status := "done" }
      { id := 1, title := "t1", description := "d1", dueDate := "2024-01-01", status := "pending" }
      (by decide)

theorem setTask_mem (m : List (Int × Models.Task)) (k : Int) (v : Models.Task) :
    ∀ kv ∈ Data.setTask m k v, kv ∈ m ∨ kv = (k, v) := by
  induction m with
  | nil =>
    intro kv h
    simp only [Data.setTask, List.mem_singleton] at h
    exact Or.inr h
  | cons a t ih =>
    intro kv h
    simp only [Data.setTask] at h
    split at h
    · rcases List.mem_cons.mp h with rfl | hm
      · exact Or.inr rfl
      · exact Or.inl (List.mem_cons_of_mem _ hm)
    · rcases List.mem_cons.mp h with rfl | hm
      · exact Or.inl (List.mem_cons_self _ _)
      · rcases ih kv hm with h1 | h2
        · exact Or.inl (List.mem_cons_of_mem _ h1)
        · exact Or.inr h2

theorem lookupTask_some_mem (m : List (Int × Models.Task)) (k : Int)
    (v : Models.Task) (h : Data.lookupTask m k = some v) : (k, v) ∈ m := by
  simp only [Data.lookupTask, Option.map_eq_some'] at h
  obtain ⟨kv, hfind, hv⟩ := h
  have hmem := List.mem_of_find?_eq_some hfind
  have hp := List.find?_some hfind
  simp only [beq_iff_eq] at hp
  rw [← hp, ← hv]
  exact hmem

theorem lookupTask_fresh (s : Data.StoreState) (hinv : Data.storeInv s) :
    Data.lookupTask s.tasks s.nextID = none := by
  cases h : Data.lookupTask s.tasks s.nextID with
  | none => rfl
  | some v =>
    have hm := lookupTask_some_mem _ _ _ h
    have := hinv _ hm
    simp at this

/-- Claim C10: in the in-memory task store, the invariant "every stored key
is strictly below nextID" holds in the initial state and is preserved by
every mutating operation; consequently `CreateTask` always assigns an id
absent from the store, and ids strictly increase across consecutive
creations. -/
theorem C10_store_invariant :
    Data.storeInv Data.initialStoreState ∧
    (∀ s t, Data.storeInv s → Data.storeInv (Data.CreateTask s t).2) ∧
    (∀ s id t, Data.storeInv s → Data.storeInv (Data.UpdateTask s id t).2) ∧
    (∀ s id, Data.storeInv s → Data.storeInv (Data.DeleteTask s id).2) ∧
    (∀ s t, Data.storeInv s →
      Data.lookupTask s.tasks (Data.CreateTask s t).1.id = none) ∧
    (∀ s t₁ t₂, (Data.CreateTask s t₁).1.id <
      (Data.CreateTask (Data.CreateTask s t₁).2 t₂).1.id) := by
  refine ⟨?_, ?_, ?_, ?_, ?_, ?_⟩
  · intro kv h
    simp [Data.initialStoreState] at h
  · intro s t hinv kv hkv
    show kv.1 < s.nextID + 1
    rcases setTask_mem _ _ _ kv hkv with hm | rfl
    · exact lt_trans (hinv kv hm) (by omega)
    · simp
  · intro s id t hinv
    simp only [Data.UpdateTask]
    cases h : Data.lookupTask s.tasks id with
    | none => exact hinv
    | some w =>
      intro kv hkv
      show kv.1 < s.nextID
      rcases setTask_mem _ _ _ kv hkv with hm | rfl
      · exact hinv kv hm
      · exact hinv (id, w) (lookupTask_some_mem s.tasks id w h)
  · intro s id hinv
    simp only [Data.DeleteTask]
    cases h : Data.lookupTask s.tasks id with
    | none => exact hinv
    | some w =>
      intro kv hkv
      exact hinv kv (List.mem_of_mem_filter hkv)
  · intro s t hinv
    exact lookupTask_fresh s hinv
  · intro s t₁ t₂
    show s.nextID < s.nextID + 1
    omega

/-- Witness for C10: each preservation statement applied to the concrete
initial state (whose invariant is checked by evaluation) and a concrete
task. -/
theorem C10_store_invariant_witness :
    Data.storeInv (Data.CreateTask Data.initialStoreState
      { id := 0, title := "t", description := "d", dueDate := "dd", status := "s" }).2 ∧
    Data.storeInv (Data.UpdateTask Data.initialStoreState 1
      { id := 7, title := "t", description := "d", dueDate := "dd", status := "s" }).2 ∧
    Data.storeInv (Data.DeleteTask Data.initialStoreState 1).2 ∧
    Data.lookupTask Data.initialStoreState.tasks
      (Data.CreateTask Data.initialStoreState
        { id := 0, title := "t", description := "d", dueDate := "dd", status := "s" }).1.id = none :=
  ⟨C10_store_invariant.2.1 Data.initialStoreState
      { id := 0, title := "t", description := "d", dueDate := "dd", status := "s" } (by decide),
   C10_store_invariant.2.2.1 Data.initialStoreState 1
      { id := 7, title := "t", description := "d", dueDate := "dd", status := "s" } (by decide),
   C10_store_invariant.2.2.2.1 Data.initialStoreState 1 (by decide),
   C10_store_invariant.2.2.2.2.1 Data.initialStoreState
      { id := 0, title := "t", description := "d", dueDate := "dd", status := "s" } (by decide)⟩

end TaskManager
